import Mathlib

/-!
# Verification of the `numerapi` client (`numerapi/numerapi.py`)

A shallow embedding of the `NumerAPI` class.  Remote effects (HTTP calls,
filesystem operations) are modelled by passing the outcome of each effect
explicitly as an argument; the pure request-building, response-processing and
state-updating logic is translated directly from the source.
-/

set_option autoImplicit false

/-- JSON values, as produced by `requests.Response.json()`.  Numbers are
modelled as rationals; objects are association lists in insertion order
(mirroring Python `dict` iteration order). -/
inductive JValue where
  | null : JValue
  | bool : Bool → JValue
  | num : Rat → JValue
  | str : String → JValue
  | arr : List JValue → JValue
  | obj : List (String × JValue) → JValue

/-- The Python exceptions the embedded code can raise. -/
inductive PyError where
  /-- a `requests` connection-level failure (network error, timeout) -/
  | connectionError (msg : String)
  /-- `requests.HTTPError`, raised by `Response.raise_for_status()` -/
  | httpError (status : Nat)
  /-- `json.JSONDecodeError`, raised by `Response.json()` on a non-JSON body -/
  | jsonDecodeError (msg : String)
  | keyError (key : String)
  | indexError
  | typeError (msg : String)
  | valueError (msg : String)
  | attributeError (name : String)
  /-- `OSError` with the given `errno` -/
  | osError (errnoVal : Int)
  | ioError (msg : String)
deriving DecidableEq

/-- Outcome of one HTTP exchange, at the level `_call` observes it: either a
connection-level failure, or a response carrying a status code and the result
of parsing its body as JSON (`Response.json()` either succeeds or raises a
decode error, independent of the status code). -/
inductive HttpResult where
  | netError (msg : String)
  | response (status : Nat) (body : Except String JValue)

/-- The mutable attributes of a `NumerAPI` instance that the claims concern:
`self.token` (an optional `(public_id, secret_key)` pair) and
`self.submission_id` (initially `None`, later the raw JSON value taken from
the create-submission response). -/
structure ClientState where
  token : Option (String × String)
  submission_id : Option JValue

/-- Python truthiness of an optional string argument: `None` and `""` are
falsy, every other string is truthy. -/
def truthy : Option String → Bool
  | none => false
  | some s => !s.isEmpty

/-- Relevant members of the Python `logging` module, as seen by
`getattr(logging, verbosity.upper())`: the integer level constants, plus
`BASIC_FORMAT` as the one all-caps member that is not an `int`. -/
inductive LoggingMember where
  | levelInt (n : Nat)
  | nonInt

/-- `getattr(logging, name)` for the all-upper-case names reachable from
`verbosity.upper()`: the documented level constants (and their aliases
`WARN`, `FATAL`, `NOTSET`), and `BASIC_FORMAT` (a string).  Any other name
has no such attribute. -/
def loggingAttr : String → Option LoggingMember
  | "DEBUG" => some (.levelInt 10)
  | "INFO" => some (.levelInt 20)
  | "WARNING" => some (.levelInt 30)
  | "WARN" => some (.levelInt 30)
  | "ERROR" => some (.levelInt 40)
  | "CRITICAL" => some (.levelInt 50)
  | "FATAL" => some (.levelInt 50)
  | "NOTSET" => some (.levelInt 0)
  | "BASIC_FORMAT" => some .nonInt
  | _ => none

/-- Python `str.upper()` on ASCII strings, character by character (defined
structurally so that it reduces definitionally). -/
def pyUpper (s : String) : String := String.mk (s.data.map Char.toUpper)

/-- The message printed by `__init__` on a partial credential pair. -/
def partialCredsWarning : String :=
  "You need to supply both a public id and a secret key."

/-- `NumerAPI.__init__(public_id, secret_key, verbosity)`.  Returns the lines
printed on stdout together with either the constructed state or the exception
raised while resolving the verbosity.  The credential check runs first (so
its warning is printed even when construction later fails); `self.token` is
set from Python truthiness of the two arguments; then
`getattr(logging, verbosity.upper())` raises `AttributeError` for an unknown
name, and a non-`int` member raises `ValueError('invalid verbosity: ...')`;
finally `self.submission_id` is set to `None`. -/
def NumerAPI.init (public_id secret_key : Option String) (verbosity : String) :
    List String × Except PyError ClientState :=
  let printed : List String :=
    if truthy public_id && truthy secret_key then []
    else if !truthy public_id && !truthy secret_key then []
    else [partialCredsWarning]
  let token : Option (String × String) :=
    match public_id, secret_key with
    | some p, some s => if !p.isEmpty && !s.isEmpty then some (p, s) else none
    | _, _ => none
  match loggingAttr (pyUpper verbosity) with
  | none => (printed, .error (.attributeError (pyUpper verbosity)))
  | some .nonInt => (printed, .error (.valueError ("invalid verbosity: " ++ verbosity)))
  | some (.levelInt _) => (printed, .ok { token := token, submission_id := none })

/-- The JSON body `{'query': query, 'variables': variables}` and headers of a
GraphQL POST to `API_TOURNAMENT_URL`, as assembled by `_call`. -/
structure GraphQLRequest where
  query : String
  /-- the `variables` entry of the POST body -/
  vars : Option JValue
  reqHeaders : List (String × String)

/-- The headers assembled by `_call`: the fixed JSON content-type pair, plus
`Authorization: Token <public_id>$<secret_key>` exactly when `authorization`
was requested and `self.token` is set (`if authorization and self.token:`). -/
def callHeaders (token : Option (String × String)) (authorization : Bool) :
    List (String × String) :=
  let base := [("Content-type", "application/json"), ("Accept", "application/json")]
  match token with
  | some (public_id, secret_key) =>
      if authorization then
        base ++ [("Authorization", "Token " ++ public_id ++ "$" ++ secret_key)]
      else base
  | none => base

/-- The request built by `_call(query, variables, authorization)`. -/
def buildCall (st : ClientState) (query : String) (vars : Option JValue)
    (authorization : Bool) : GraphQLRequest :=
  { query := query, vars := vars,
    reqHeaders := callHeaders st.token authorization }

/-- How `_call` turns the HTTP exchange into its return value:
`r = requests.post(...)` propagates connection failures, and then
`return r.json()` parses the body regardless of the status code (there is no
`raise_for_status` in `_call`), raising only a JSON decode error. -/
def callResult : HttpResult → Except PyError JValue
  | .netError msg => .error (.connectionError msg)
  | .response _ (.ok j) => .ok j
  | .response _ (.error msg) => .error (.jsonDecodeError msg)

/-- `obj['k']` on a JSON value: a `dict` lookup (first binding wins, matching
`dict` semantics where keys are unique), `KeyError` on a missing key,
`TypeError` when the value is not a `dict`. -/
def getKey (j : JValue) (k : String) : Except PyError JValue :=
  match j with
  | .obj fields =>
      match fields.lookup k with
      | some v => .ok v
      | none => .error (.keyError k)
  | _ => .error (.typeError "value is not subscriptable by string")

/-- `xs[i]` on a JSON value: list indexing with `IndexError` past the end;
a `dict` raises `KeyError` for an integer key, anything else `TypeError`. -/
def getIndex (j : JValue) (i : Nat) : Except PyError JValue :=
  match j with
  | .arr xs =>
      match xs.get? i with
      | some v => .ok v
      | none => .error .indexError
  | .obj _ => .error (.keyError (toString i))
  | _ => .error (.typeError "value is not indexable by integer")

/-- A remote operation issued by a client method: a GraphQL POST through
`_call`, or the raw `requests.put` used by `upload_predictions`. -/
inductive RemoteOp where
  | graphql (req : GraphQLRequest)
  | putFile (url : JValue)

/-- The `rounds` selector interpolated into the competitions query:
`"rounds"` when `round_num` is `None`, else `"rounds(number: <n>)"`. -/
def roundsSelector : Option Int → String
  | none => "rounds"
  | some n => "rounds(number: " ++ toString n ++ ")"

/-- The query string of `get_competitions` after `.format(query_rounds)`
(the doubled braces of the Python format string become single braces). -/
def competitionsQuery (round_num : Option Int) : String :=
  "\n            query simpleRoundsRequest \x7b\n              "
    ++ roundsSelector round_num
    ++ " \x7b\n                number\n                resolveTime\n                datasetId\n                openTime\n                resolvedGeneral\n                resolvedStaking\n              \x7d\n            \x7d\n        "

/-- `get_competitions(round_num)`: builds the rounds query, issues it through
`_call` with no authorization and no variables, and returns `_call`'s result
unchanged.  `self` is not mutated. -/
def get_competitions (st : ClientState) (round_num : Option Int)
    (resp : HttpResult) :
    List RemoteOp × Except PyError JValue × ClientState :=
  let req := buildCall st (competitionsQuery round_num) none false
  ([.graphql req], callResult resp, st)

/-- The query string of `submission_status`. -/
def submissionsQuery : String :=
  "\n            query submissions($submission_id: String!) \x7b\n              submissions(id: $submission_id) \x7b\n                originality \x7b\n                  pending\n                  value\n                \x7d\n                concordance \x7b\n                  pending\n                  value\n                \x7d\n                consistency\n                validation_logloss\n              \x7d\n            \x7d\n            "

/-- The body of the flattening loop of `submission_status`: for one
`key, value` pair, `if isinstance(value, dict): value = value['value']`
(a missing `'value'` key raises `KeyError`), then `status[key] = value`. -/
def flattenField (kv : String × JValue) : Except PyError (String × JValue) :=
  match kv.2 with
  | .obj inner =>
      match inner.lookup "value" with
      | some w => .ok (kv.1, w)
      | none => .error (.keyError "value")
  | _ => .ok (kv.1, kv.2)

/-- The flattening loop of `submission_status`, over the fields of the first
submission record in iteration order, stopping at the first exception. -/
def flattenFields : List (String × JValue) → Except PyError (List (String × JValue))
  | [] => .ok []
  | kv :: rest => do
      let kv' ← flattenField kv
      let rest' ← flattenFields rest
      Except.ok (kv' :: rest')

/-- `submission_status()`: raises
`ValueError('`submission_id` cannot be None')` before issuing any request
when `self.submission_id` is `None`; otherwise issues the submissions query
with `{'submission_id': self.submission_id}` as variables and authorization,
takes `status_raw['data']['submissions'][0]`, and flattens each field with
`flattenField`.  `self` is not mutated. -/
def submission_status (st : ClientState) (resp : HttpResult) :
    List RemoteOp × Except PyError JValue × ClientState :=
  match st.submission_id with
  | none => ([], .error (.valueError "`submission_id` cannot be None"), st)
  | some sid =>
    let req := buildCall st submissionsQuery
      (some (.obj [("submission_id", sid)])) true
    let result : Except PyError JValue := do
      let raw ← callResult resp
      let d ← getKey raw "data"
      let subs ← getKey d "submissions"
      let first ← getIndex subs 0
      match first with
      | .obj fields => do
          let flat ← flattenFields fields
          Except.ok (.obj flat)
      | _ => .error (.typeError "items requires a dict")
    ([.graphql req], result, st)

/-- `os.path.basename` on a POSIX path: everything after the last `/`. -/
def basename (p : String) : String :=
  match (p.splitOn "/").getLast? with
  | some s => s
  | none => p

/-- The `auth_query` string of `upload_predictions`. -/
def uploadAuthQuery : String :=
  "\n            query($filename: String!) \x7b\n                submission_upload_auth(filename: $filename) \x7b\n                    filename\n                    url\n                \x7d\n            \x7d\n            "

/-- The `create_query` string of `upload_predictions`. -/
def createSubmissionQuery : String :=
  "\n            mutation($filename: String!) \x7b\n                create_submission(filename: $filename) \x7b\n                    id\n                \x7d\n            \x7d\n            "

/-- The outcomes of the remote and filesystem effects `upload_predictions`
performs, in program order: the upload-auth `_call`, reading the predictions
file, the raw `requests.put`, and the create-submission `_call`. -/
structure UploadEnv where
  authResp : HttpResult
  fileRead : Except PyError Unit
  putResult : Except PyError Unit
  createResp : HttpResult

/-- `upload_predictions(file_path)`, step by step as in the source: issue the
upload-auth query (authorized, with the file's basename as variable); take
`submission_resp['data']['submission_upload_auth']`; read the file
(`open(file_path, 'rb').read()`); `requests.put` to `submission_auth['url']`
(its response is discarded, so only connection failures surface); issue the
create-submission mutation with `submission_auth['filename']`; finally assign
`self.submission_id = create['data']['create_submission']['id']` and return
it.  Any exception before that assignment leaves `self.submission_id`
unchanged.  Returns the remote operations issued, the result, and the
resulting state. -/
def upload_predictions (st : ClientState) (file_path : String)
    (env : UploadEnv) :
    List RemoteOp × Except PyError JValue × ClientState :=
  let authReq := buildCall st uploadAuthQuery
    (some (.obj [("filename", .str (basename file_path))])) true
  match (do
      let j ← callResult env.authResp
      let d ← getKey j "data"
      getKey d "submission_upload_auth" : Except PyError JValue) with
  | .error e => ([.graphql authReq], .error e, st)
  | .ok auth =>
    match env.fileRead with
    | .error e => ([.graphql authReq], .error e, st)
    | .ok _ =>
      match getKey auth "url" with
      | .error e => ([.graphql authReq], .error e, st)
      | .ok url =>
        match env.putResult with
        | .error e => ([.graphql authReq, .putFile url], .error e, st)
        | .ok _ =>
          match getKey auth "filename" with
          | .error e => ([.graphql authReq, .putFile url], .error e, st)
          | .ok fn =>
            let createReq := buildCall st createSubmissionQuery
              (some (.obj [("filename", fn)])) true
            let ops := [.graphql authReq, .putFile url, .graphql createReq]
            match (do
                let c ← callResult env.createResp
                let d ← getKey c "data"
                let cs ← getKey d "create_submission"
                getKey cs "id" : Except PyError JValue) with
            | .error e => (ops, .error e, st)
            | .ok sid => (ops, .ok sid, { st with submission_id := some sid })

/-- `errno.EEXIST` on POSIX systems. -/
def EEXIST : Int := 17

/-- Outcome of one `os.makedirs` call. -/
inductive MkdirResult where
  | ok
  | err (errnoVal : Int)

/-- The `try: os.makedirs(...) except OSError` pattern used by both
`download_current_dataset` and `_unzip_file`: an `OSError` whose `errno` is
`EEXIST` is swallowed, any other `OSError` is re-raised. -/
def handleMakedirs : MkdirResult → Except PyError Unit
  | .ok => .ok ()
  | .err e => if e = EEXIST then .ok () else .error (.osError e)

/-- `_unzip_file(src_path, dest_path, filename)`: create the unzip directory
(already-exists swallowed), then extract the archive, then return `True`. -/
def unzip_file (mkdirRes : MkdirResult) (extractRes : Except PyError Unit) :
    Except PyError Bool := do
  let _ ← handleMakedirs mkdirRes
  let _ ← extractRes
  pure true

/-- Outcomes of the effects of `download_current_dataset`, in program order:
the dataset GET (a connection failure or a status code, which
`raise_for_status()` then inspects), `os.makedirs(dest_path)`, writing the
zip file, and — when unzipping — the `os.makedirs` and `extractall` inside
`_unzip_file`. -/
structure DownloadEnv where
  getResult : Except PyError Nat
  mkdirDest : MkdirResult
  writeResult : Except PyError Unit
  mkdirUnzip : MkdirResult
  extractResult : Except PyError Unit

/-- `Response.raise_for_status()`: raises `HTTPError` exactly for status
codes in `[400, 600)`, otherwise returns the status. -/
def raiseForStatus (status : Nat) : Except PyError Nat :=
  if 400 ≤ status ∧ status < 600 then .error (.httpError status) else .ok status

/-- `download_current_dataset(dest_path, unzip)`: GET the dataset with
`raise_for_status()`, create the destination directory (already-exists
swallowed), write the zip, optionally `_unzip_file`, return `True`.
`self` is not mutated. -/
def download_current_dataset (st : ClientState) (unzip : Bool)
    (env : DownloadEnv) : Except PyError Bool × ClientState :=
  let result : Except PyError Bool := do
    let status ← env.getResult
    let _ ← raiseForStatus status
    let _ ← handleMakedirs env.mkdirDest
    let _ ← env.writeResult
    if unzip then
      let _ ← unzip_file env.mkdirUnzip env.extractResult
      pure true
    else
      pure true
  (result, st)

/-- The flattening described by the spec, as a pure function on the fields of
the first submission record: scalar fields pass through unchanged; a nested
mapping field is replaced by its `value` entry (which the spec assumes to be
present; `getD` keeps the function total). -/
def specFlattenField (kv : String × JValue) : String × JValue :=
  match kv.2 with
  | .obj inner => (kv.1, (inner.lookup "value").getD (.obj inner))
  | _ => (kv.1, kv.2)

/-- A submission record is well formed when every nested mapping field
carries a `value` entry. -/
def wellFormedFields : List (String × JValue) → Bool
  | [] => true
  | kv :: rest =>
      (match kv.2 with
       | .obj inner => (inner.lookup "value").isSome
       | _ => true) && wellFormedFields rest

theorem upload_predictions_ok (st : ClientState) (fp : String) (env : UploadEnv)
    (sid : JValue) (h : (upload_predictions st fp env).2.1 = Except.ok sid) :
    (upload_predictions st fp env).2.2 = { st with submission_id := some sid } := by
  simp only [upload_predictions] at h ⊢
  repeat' split at h
  all_goals simp_all

theorem upload_predictions_error (st : ClientState) (fp : String)
    (env : UploadEnv) (e : PyError)
    (h : (upload_predictions st fp env).2.1 = Except.error e) :
    (upload_predictions st fp env).2.2 = st := by
  simp only [upload_predictions] at h ⊢
  repeat' split at h
  all_goals simp_all

theorem flattenFields_ok (fields : List (String × JValue))
    (hwf : wellFormedFields fields = true) :
    flattenFields fields = Except.ok (fields.map specFlattenField) := by
  induction fields with
  | nil => rfl
  | cons kv rest ih =>
    rw [wellFormedFields, Bool.and_eq_true] at hwf
    have hrest := ih hwf.2
    have hkv : flattenField kv = Except.ok (specFlattenField kv) := by
      have h1 := hwf.1
      cases hv : kv.2 with
      | obj inner =>
        simp only [hv] at h1
        obtain ⟨w, hw⟩ := Option.isSome_iff_exists.mp h1
        simp [flattenField, specFlattenField, hv, hw]
      | null => simp [flattenField, specFlattenField, hv]
      | bool b => simp [flattenField, specFlattenField, hv]
      | num q => simp [flattenField, specFlattenField, hv]
      | str s => simp [flattenField, specFlattenField, hv]
      | arr xs => simp [flattenField, specFlattenField, hv]
    simp only [flattenFields, hkv, hrest, List.map]
    rfl

/-- C1 (counterexample): `_call` has no `raise_for_status`.  On an HTTP 500
response whose body parses as JSON, `get_competitions` returns the parsed
body instead of surfacing an HTTP-layer error, contradicting the claim as
stated. -/
theorem C1_counterexample :
    (get_competitions { token := none, submission_id := none } none
        (HttpResult.response 500 (Except.ok (JValue.obj [])))).2.1 =
      Except.ok (JValue.obj []) := rfl

/-- C1 (amended): `_call` ignores the HTTP status code entirely: its result
depends only on the outcome of parsing the body, so for any status code, 2xx
or not, a parseable body is returned to the caller (shown through
`get_competitions`, which returns `_call`'s result unchanged); only
connection-level failures and JSON parse failures surface as errors. -/
theorem C1_amended (st : ClientState) (round_num : Option Int)
    (s s' : Nat) (b : Except String JValue) (j : JValue) (m : String) :
    callResult (HttpResult.response s b) = callResult (HttpResult.response s' b) ∧
    (get_competitions st round_num (HttpResult.response s (Except.ok j))).2.1 =
      Except.ok j ∧
    callResult (HttpResult.netError m) =
      Except.error (PyError.connectionError m) := by
  refine ⟨?_, rfl, rfl⟩
  cases b <;> rfl

/-- C2 (counterexample): for the unrecognized verbosity string "bogus",
construction fails with `AttributeError` (raised by
`getattr(logging, "BOGUS")`), not with the constructor's `ValueError`. -/
theorem C2_counterexample :
    (NumerAPI.init none none "bogus").2 =
        Except.error (PyError.attributeError "BOGUS") ∧
    (NumerAPI.init none none "bogus").2 ≠
        Except.error (PyError.valueError "invalid verbosity: bogus") := by
  refine ⟨rfl, ?_⟩
  intro h
  rw [show (NumerAPI.init none none "bogus").2 =
      Except.error (PyError.attributeError "BOGUS") from rfl] at h
  exact PyError.noConfusion (Except.error.inj h)

/-- C2 (amended): for every verbosity string whose upper-casing does not name
an integer severity level of the logging module, construction fails and no
client instance is produced; the failure is the constructor's `ValueError`
when the name resolves to a non-integer member of the module, and an
`AttributeError` from the attribute lookup otherwise. -/
theorem C2_amended (public_id secret_key : Option String) (verbosity : String)
    (h : ∀ n, loggingAttr (pyUpper verbosity) ≠ some (LoggingMember.levelInt n)) :
    (NumerAPI.init public_id secret_key verbosity).2 =
      (match loggingAttr (pyUpper verbosity) with
       | some LoggingMember.nonInt =>
           Except.error (PyError.valueError ("invalid verbosity: " ++ verbosity))
       | _ => Except.error (PyError.attributeError (pyUpper verbosity))) := by
  unfold NumerAPI.init
  rcases hl : loggingAttr (pyUpper verbosity) with _ | m
  · simp [hl]
  · cases m with
    | levelInt n => exact absurd hl (h n)
    | nonInt => simp [hl]

/-- C2 (witness): the amended theorem applied at verbosity "bogus". -/
theorem C2_witness :
    (NumerAPI.init none none "bogus").2 =
      Except.error (PyError.attributeError "BOGUS") := by
  have h := C2_amended none none "bogus" (fun n hn => Option.noConfusion hn)
  exact h

/-- C6: when no submission identifier is stored, `submission_status` raises
`ValueError` (the spec's `MissingState`) without issuing any remote request,
leaving the state unchanged. -/
theorem C6_missing_submission_id (st : ClientState) (resp : HttpResult)
    (h : st.submission_id = none) :
    submission_status st resp =
      ([], Except.error (PyError.valueError "`submission_id` cannot be None"),
        st) := by
  unfold submission_status
  rw [h]

/-- C6 (witness): a fresh client has no stored identifier, so
`submission_status` fails with the `ValueError` and issues no request. -/
theorem C6_witness :
    submission_status { token := none, submission_id := none }
        (HttpResult.netError "unused") =
      ([], Except.error (PyError.valueError "`submission_id` cannot be None"),
        { token := none, submission_id := none }) :=
  C6_missing_submission_id { token := none, submission_id := none }
    (HttpResult.netError "unused") rfl

/-- C8: the headers built by `_call` with authorization requested: with
credentials configured the request carries
`Authorization: Token <public_id>$<secret_key>` alongside the two JSON
headers; with no credentials configured it carries exactly the two JSON
headers and no Authorization entry, and no error arises on this path
(request building is total and `_call`'s result is `callResult` alone). -/
theorem C8_authorization_header (q : String) (v : Option JValue)
    (public_id secret_key : String) (sid sid' : Option JValue) :
    (buildCall { token := some (public_id, secret_key), submission_id := sid }
        q v true).reqHeaders =
      [("Content-type", "application/json"), ("Accept", "application/json"),
       ("Authorization", "Token " ++ public_id ++ "$" ++ secret_key)] ∧
    (buildCall { token := none, submission_id := sid' } q v true).reqHeaders =
      [("Content-type", "application/json"), ("Accept", "application/json")] :=
  ⟨rfl, rfl⟩

/-- C10: credential presence is decided by Python truthiness: two empty
strings are treated as both absent (silent anonymous mode, no warning), and
an empty string paired with a non-empty one is a partial pair (warning, then
anonymous mode). -/
theorem C10_truthiness_of_credentials :
    NumerAPI.init (some "") (some "") "INFO" =
      ([], Except.ok { token := none, submission_id := none }) ∧
    NumerAPI.init (some "") (some "key") "INFO" =
      ([partialCredsWarning],
        Except.ok { token := none, submission_id := none }) ∧
    NumerAPI.init (some "id") (some "") "INFO" =
      ([partialCredsWarning],
        Except.ok { token := none, submission_id := none }) :=
  ⟨rfl, rfl, rfl⟩

/-- C7: with exactly one truthy credential supplied (a partial pair, under
Python truthiness) and the default verbosity "INFO", construction succeeds,
prints the configuration warning, and yields an anonymous client: no stored
token (and no stored submission identifier). -/
theorem C7_partial_credentials (public_id secret_key : Option String)
    (h : truthy public_id ≠ truthy secret_key) :
    NumerAPI.init public_id secret_key "INFO" =
      ([partialCredsWarning],
        Except.ok { token := none, submission_id := none }) := by
  unfold NumerAPI.init
  cases public_id with
  | none =>
    cases secret_key with
    | none => simp [truthy] at h
    | some s =>
      cases hs : s.isEmpty with
      | true => rw [truthy, truthy, hs] at h; simp at h
      | false => simp [truthy, hs]; rfl
  | some p =>
    cases secret_key with
    | none =>
      cases hp : p.isEmpty with
      | true => rw [truthy, truthy, hp] at h; simp at h
      | false => simp [truthy, hp]; rfl
    | some s =>
      cases hp : p.isEmpty with
      | true =>
        cases hs : s.isEmpty with
        | true => rw [truthy, truthy, hp, hs] at h; simp at h
        | false => simp [truthy, hp, hs]; rfl
      | false =>
        cases hs : s.isEmpty with
        | true => simp [truthy, hp, hs]; rfl
        | false => rw [truthy, truthy, hp, hs] at h; simp at h

/-- C7 (witness): supplying only a public identifier prints the warning and
produces an anonymous client. -/
theorem C7_witness :
    NumerAPI.init (some "id") none "INFO" =
      ([partialCredsWarning],
        Except.ok { token := none, submission_id := none }) :=
  C7_partial_credentials (some "id") none (by decide)

/-- C3: when every remote step succeeds and the create-submission mutation
yields identifier `sid`, `upload_predictions` stores `sid` as the client's
submission state (and returns it, which is the hypothesis), and a subsequent
`submission_status` on the resulting state issues exactly one GraphQL request
whose variables are `{'submission_id': sid}`. -/
theorem C3_upload_stores_and_status_uses_id (st : ClientState) (fp : String)
    (env : UploadEnv) (sid : JValue) (resp : HttpResult)
    (h : (upload_predictions st fp env).2.1 = Except.ok sid) :
    (upload_predictions st fp env).2.2 = { st with submission_id := some sid } ∧
    (submission_status (upload_predictions st fp env).2.2 resp).1 =
      [RemoteOp.graphql (buildCall { st with submission_id := some sid }
        submissionsQuery (some (JValue.obj [("submission_id", sid)])) true)] := by
  have hs := upload_predictions_ok st fp env sid h
  refine ⟨hs, ?_⟩
  rw [hs]
  rfl

/-- C3 (witness): a fully successful upload of "preds.csv" whose
create-submission response carries id "abc123" stores and propagates
"abc123". -/
theorem C3_witness :
    (upload_predictions { token := some ("pid", "sk"), submission_id := none }
        "preds.csv"
        { authResp := HttpResult.response 200 (Except.ok (JValue.obj
            [("data", JValue.obj [("submission_upload_auth", JValue.obj
              [("filename", JValue.str "preds.csv"),
               ("url", JValue.str "https://upload.example")])])])),
          fileRead := Except.ok (),
          putResult := Except.ok (),
          createResp := HttpResult.response 200 (Except.ok (JValue.obj
            [("data", JValue.obj [("create_submission", JValue.obj
              [("id", JValue.str "abc123")])])])) }).2.2 =
      { token := some ("pid", "sk"),
        submission_id := some (JValue.str "abc123") } ∧
    (submission_status
        (upload_predictions
          { token := some ("pid", "sk"), submission_id := none } "preds.csv"
          { authResp := HttpResult.response 200 (Except.ok (JValue.obj
              [("data", JValue.obj [("submission_upload_auth", JValue.obj
                [("filename", JValue.str "preds.csv"),
                 ("url", JValue.str "https://upload.example")])])])),
            fileRead := Except.ok (),
            putResult := Except.ok (),
            createResp := HttpResult.response 200 (Except.ok (JValue.obj
              [("data", JValue.obj [("create_submission", JValue.obj
                [("id", JValue.str "abc123")])])])) }).2.2
        (HttpResult.netError "unused")).1 =
      [RemoteOp.graphql (buildCall
        { token := some ("pid", "sk"),
          submission_id := some (JValue.str "abc123") }
        submissionsQuery
        (some (JValue.obj [("submission_id", JValue.str "abc123")])) true)] :=
  C3_upload_stores_and_status_uses_id
    { token := some ("pid", "sk"), submission_id := none } "preds.csv"
    { authResp := HttpResult.response 200 (Except.ok (JValue.obj
        [("data", JValue.obj [("submission_upload_auth", JValue.obj
          [("filename", JValue.str "preds.csv"),
           ("url", JValue.str "https://upload.example")])])])),
      fileRead := Except.ok (),
      putResult := Except.ok (),
      createResp := HttpResult.response 200 (Except.ok (JValue.obj
        [("data", JValue.obj [("create_submission", JValue.obj
          [("id", JValue.str "abc123")])])])) }
    (JValue.str "abc123") (HttpResult.netError "unused") rfl

/-- C4: the stored submission identifier is modified only by a successful
`upload_predictions`: `get_competitions`, `submission_status` and
`download_current_dataset` return the state unchanged, and an
`upload_predictions` that raises (any exception, before the assignment)
also leaves the state unchanged. -/
theorem C4_submission_id_frame (st : ClientState) (round_num : Option Int)
    (resp resp' : HttpResult) (uz : Bool) (denv : DownloadEnv) (fp : String)
    (env : UploadEnv) (e : PyError)
    (h : (upload_predictions st fp env).2.1 = Except.error e) :
    (get_competitions st round_num resp).2.2 = st ∧
    (submission_status st resp').2.2 = st ∧
    (download_current_dataset st uz denv).2 = st ∧
    (upload_predictions st fp env).2.2 = st := by
  refine ⟨rfl, ?_, rfl, upload_predictions_error st fp env e h⟩
  unfold submission_status
  cases st.submission_id <;> rfl

/-- C4 (witness): an upload whose very first call fails on the network
leaves a previously stored identifier untouched, as do the read-only
operations. -/
theorem C4_witness :
    (get_competitions
        { token := none, submission_id := some (JValue.str "old") } none
        (HttpResult.netError "down")).2.2 =
      { token := none, submission_id := some (JValue.str "old") } ∧
    (submission_status
        { token := none, submission_id := some (JValue.str "old") }
        (HttpResult.netError "down")).2.2 =
      { token := none, submission_id := some (JValue.str "old") } ∧
    (download_current_dataset
        { token := none, submission_id := some (JValue.str "old") } true
        { getResult := Except.ok 200, mkdirDest := MkdirResult.ok,
          writeResult := Except.ok (), mkdirUnzip := MkdirResult.ok,
          extractResult := Except.ok () }).2 =
      { token := none, submission_id := some (JValue.str "old") } ∧
    (upload_predictions
        { token := none, submission_id := some (JValue.str "old") } "p.csv"
        { authResp := HttpResult.netError "down", fileRead := Except.ok (),
          putResult := Except.ok (),
          createResp := HttpResult.netError "down" }).2.2 =
      { token := none, submission_id := some (JValue.str "old") } :=
  C4_submission_id_frame
    { token := none, submission_id := some (JValue.str "old") } none
    (HttpResult.netError "down") (HttpResult.netError "down") true
    { getResult := Except.ok 200, mkdirDest := MkdirResult.ok,
      writeResult := Except.ok (), mkdirUnzip := MkdirResult.ok,
      extractResult := Except.ok () } "p.csv"
    { authResp := HttpResult.netError "down", fileRead := Except.ok (),
      putResult := Except.ok (), createResp := HttpResult.netError "down" }
    (PyError.connectionError "down") rfl

theorem Except.ok_bind {ε α β : Type} (a : α) (f : α → Except ε β) :
    (Except.ok a : Except ε α) >>= f = f a := rfl

theorem Except.error_bind {ε α β : Type} (e : ε) (f : α → Except ε β) :
    (Except.error e : Except ε α) >>= f = (Except.error e : Except ε β) := rfl

/-- C5: for every well-formed submissions response (first record present,
every nested mapping field carrying a `value` entry), `submission_status`
returns the first record with every scalar field unchanged and every nested
mapping field replaced by its `value` entry (the spec-side `specFlattenField`
applied to each field in order). -/
theorem C5_status_flattening (st : ClientState) (sid j d : JValue)
    (resp : HttpResult) (fields : List (String × JValue)) (rest : List JValue)
    (hsid : st.submission_id = some sid)
    (hresp : callResult resp = Except.ok j)
    (hdata : getKey j "data" = Except.ok d)
    (hsubs : getKey d "submissions" =
      Except.ok (JValue.arr (JValue.obj fields :: rest)))
    (hwf : wellFormedFields fields = true) :
    (submission_status st resp).2.1 =
      Except.ok (JValue.obj (fields.map specFlattenField)) := by
  unfold submission_status
  rw [hsid]
  simp [hresp, hdata, hsubs, getIndex, flattenFields_ok fields hwf,
    Except.ok_bind]

/-- C5 (witness): the spec's example record
`{"originality": {"pending": false, "value": true}, "consistency": 0.8,
"validation_logloss": 0.02}` is flattened to
`{"originality": true, "consistency": 0.8, "validation_logloss": 0.02}`. -/
theorem C5_witness :
    (submission_status
        { token := none, submission_id := some (JValue.str "abc123") }
        (HttpResult.response 200 (Except.ok (JValue.obj
          [("data", JValue.obj [("submissions", JValue.arr [JValue.obj
            [("originality", JValue.obj
               [("pending", JValue.bool false), ("value", JValue.bool true)]),
             ("consistency", JValue.num 0.8),
             ("validation_logloss", JValue.num 0.02)]])])])))).2.1 =
      Except.ok (JValue.obj
        [("originality", JValue.bool true),
         ("consistency", JValue.num 0.8),
         ("validation_logloss", JValue.num 0.02)]) :=
  C5_status_flattening
    { token := none, submission_id := some (JValue.str "abc123") }
    (JValue.str "abc123")
    (JValue.obj [("data", JValue.obj [("submissions", JValue.arr [JValue.obj
      [("originality", JValue.obj
         [("pending", JValue.bool false), ("value", JValue.bool true)]),
       ("consistency", JValue.num 0.8),
       ("validation_logloss", JValue.num 0.02)]])])])
    (JValue.obj [("submissions", JValue.arr [JValue.obj
      [("originality", JValue.obj
         [("pending", JValue.bool false), ("value", JValue.bool true)]),
       ("consistency", JValue.num 0.8),
       ("validation_logloss", JValue.num 0.02)]])])
    (HttpResult.response 200 (Except.ok (JValue.obj
      [("data", JValue.obj [("submissions", JValue.arr [JValue.obj
        [("originality", JValue.obj
           [("pending", JValue.bool false), ("value", JValue.bool true)]),
         ("consistency", JValue.num 0.8),
         ("validation_logloss", JValue.num 0.02)]])])])))
    [("originality", JValue.obj
       [("pending", JValue.bool false), ("value", JValue.bool true)]),
     ("consistency", JValue.num 0.8),
     ("validation_logloss", JValue.num 0.02)]
    [] rfl rfl rfl rfl rfl

/-- C9: directory creation is idempotent in `download_current_dataset` and
`_unzip_file`: an already-exists failure (`errno == EEXIST`) at either
`os.makedirs` site behaves exactly like success, any other `errno` is
propagated as the `OSError`, and a second run against an existing
destination (both `makedirs` calls failing with `EEXIST`) still returns
`True`. -/
theorem C9_mkdir_idempotent (st : ClientState) (env : DownloadEnv) (e : Int)
    (he : e ≠ EEXIST) :
    download_current_dataset st true
        { env with mkdirDest := MkdirResult.err EEXIST } =
      download_current_dataset st true { env with mkdirDest := MkdirResult.ok } ∧
    download_current_dataset st true
        { env with mkdirUnzip := MkdirResult.err EEXIST } =
      download_current_dataset st true
        { env with mkdirUnzip := MkdirResult.ok } ∧
    (env.getResult = Except.ok 200 →
      download_current_dataset st true
          { env with mkdirDest := MkdirResult.err e } =
        (Except.error (PyError.osError e), st)) ∧
    (env.getResult = Except.ok 200 → env.mkdirDest = MkdirResult.ok →
      env.writeResult = Except.ok () →
      download_current_dataset st true
          { env with mkdirUnzip := MkdirResult.err e } =
        (Except.error (PyError.osError e), st)) ∧
    download_current_dataset st true
      { getResult := Except.ok 200, mkdirDest := MkdirResult.err EEXIST,
        writeResult := Except.ok (), mkdirUnzip := MkdirResult.err EEXIST,
        extractResult := Except.ok () } = (Except.ok true, st) := by
  refine ⟨?_, ?_, ?_, ?_, rfl⟩
  · simp [download_current_dataset, handleMakedirs, EEXIST, unzip_file]
  · simp [download_current_dataset, handleMakedirs, EEXIST, unzip_file]
  · intro hg
    have he17 : ¬(e = 17) := by simpa [EEXIST] using he
    simp [download_current_dataset, handleMakedirs, EEXIST, hg,
      raiseForStatus, he17, Except.ok_bind, Except.error_bind]
  · intro hg hm hw
    have he17 : ¬(e = 17) := by simpa [EEXIST] using he
    simp [download_current_dataset, handleMakedirs, EEXIST, hg, hm, hw,
      unzip_file, raiseForStatus, he17, Except.ok_bind, Except.error_bind]

/-- C9 (witness): a second download against an existing destination (both
`makedirs` calls hit `EEXIST`) succeeds, while a different `errno` (20,
`ENOTDIR`) propagates as the `OSError`. -/
theorem C9_witness :
    download_current_dataset { token := none, submission_id := none } true
      { getResult := Except.ok 200, mkdirDest := MkdirResult.err 17,
        writeResult := Except.ok (), mkdirUnzip := MkdirResult.err 17,
        extractResult := Except.ok () } =
      (Except.ok true, { token := none, submission_id := none }) ∧
    download_current_dataset { token := none, submission_id := none } true
      { getResult := Except.ok 200, mkdirDest := MkdirResult.err 20,
        writeResult := Except.ok (), mkdirUnzip := MkdirResult.ok,
        extractResult := Except.ok () } =
      (Except.error (PyError.osError 20),
        { token := none, submission_id := none }) := by
  have h := C9_mkdir_idempotent { token := none, submission_id := none }
    { getResult := Except.ok 200, mkdirDest := MkdirResult.ok,
      writeResult := Except.ok (), mkdirUnzip := MkdirResult.ok,
      extractResult := Except.ok () } 20 (by decide)
  exact ⟨h.2.2.2.2, h.2.2.1 rfl⟩
